import Mathlib

/-!
Verification of the `nilmtk_contrib.torch.rnn_new` disaggregator.

Shallow embedding of `src/nilmtk_contrib/torch/rnn_new.py`.  Scalars that the
Python code handles as floats are modelled as rationals (`ℚ`), except where the
code takes a square root (`np.std`), which is modelled in `ℝ`.  NumPy arrays and
pandas series become `List ℚ`; `OrderedDict` becomes an association list
(insertion-ordered, update-in-place preserves order).  Exceptions become
`Except RNNError`.  The learned network and the gradient-descent update are
opaque to this development: definitions that use them are parametrised by the
model type `M`, a constructor `returnNetwork` (RNN.return_network) and a
training function `trainFn` (RNN.train_model); theorems quantify over them.
-/

/-- Errors raised by the module: `SequenceLengthError` (rnn_new.py line 26),
`ApplianceNotFoundError` (line 29), and Python's builtin `KeyError` raised by
the `self.appliance_params[appliance]` subscript at line 308. -/
inductive RNNError where
  | sequenceLengthError
  | applianceNotFound
  | keyError
deriving DecidableEq

/-- Per-appliance normalization statistics `{'mean': .., 'std': ..}` as consumed
by the preprocessing / inference pipeline (caller-supplied floats, modelled ℚ). -/
structure Stats where
  mean : ℚ
  std : ℚ
deriving DecidableEq

/-- The attributes `RNN.__init__` stores on `self` (line 104-114), minus the
constant `MODEL_NAME`/`file_prefix`/`device` strings.  `models` is the
`OrderedDict` registry, generic in the network type `M`. -/
structure RNNState (M : Type) where
  chunk_wise_training : Bool
  sequence_length : ℕ
  n_epochs : ℕ
  batch_size : ℕ
  appliance_params : List (String × Stats)
  mains_mean : ℚ
  mains_std : ℚ
  models : List (String × M)
deriving DecidableEq

/-- The `params` dict handed to `RNN.__init__`: `params.get(key, default)` is
`Option.getD`; a missing key is `none`. -/
structure RNNParams where
  chunk_wise_training : Option Bool
  sequence_length : Option ℕ
  n_epochs : Option ℕ
  batch_size : Option ℕ
  appliance_params : Option (List (String × Stats))
  mains_mean : Option ℚ
  mains_std : Option ℚ
deriving DecidableEq

/-- RNN.__init__ (rnn_new.py lines 100-118): read every option with its
default, then raise `SequenceLengthError` when the sequence length is even. -/
def rnnInit (M : Type) (p : RNNParams) : Except RNNError (RNNState M) :=
  let st : RNNState M :=
    { chunk_wise_training := p.chunk_wise_training.getD false
      sequence_length := p.sequence_length.getD 19
      n_epochs := p.n_epochs.getD 10
      batch_size := p.batch_size.getD 512
      appliance_params := p.appliance_params.getD []
      mains_mean := p.mains_mean.getD 1800
      mains_std := p.mains_std.getD 600
      models := [] }
  if st.sequence_length % 2 == 0 then
    Except.error RNNError.sequenceLengthError
  else
    Except.ok st

/-- Z-score normalization `(x - mean) / std` (rnn_new.py lines 338, 365, 385). -/
def normalizeValue (x mean std : ℚ) : ℚ := (x - mean) / std

/-- Denormalization `mean + v * std` (rnn_new.py lines 308-309). -/
def denormalizeValue (v mean std : ℚ) : ℚ := mean + v * std

/-- np.pad(xs, (p, p), 'constant', constant_values=(0, 0)) (line 336). -/
def padSeries (xs : List ℚ) (p : ℕ) : List ℚ :=
  List.replicate p 0 ++ xs ++ List.replicate p 0

/-- np.array([xs[i:i+n] for i in range(len(xs)-n+1)]) (line 337): every
contiguous length-`n` slice at stride 1.  Python's `range` of a non-positive
bound is empty, which truncated `ℕ` subtraction in `xs.length + 1 - n`
reproduces exactly. -/
def slidingWindows (xs : List ℚ) (n : ℕ) : List (List ℚ) :=
  (List.range (xs.length + 1 - n)).map (fun i => (xs.drop i).take n)

/-- One mains chunk through the mains branch of `call_preprocessing`
(lines 332-338 = 379-385, identical in the 'train' and 'test' paths):
flatten, pad with `n // 2` zeros on each side, slide a length-`n` window,
normalize by the global mains statistics. -/
def processMainsChunk (xs : List ℚ) (n : ℕ) (mmean mstd : ℚ) : List (List ℚ) :=
  (slidingWindows (padSeries xs (n / 2)) n).map
    (fun w => w.map (fun x => normalizeValue x mmean mstd))

lemma padSeries_length (xs : List ℚ) (p : ℕ) :
    (padSeries xs p).length = p + xs.length + p := by
  simp [padSeries]; omega

lemma slidingWindows_length (xs : List ℚ) (n : ℕ) :
    (slidingWindows xs n).length = xs.length + 1 - n := by
  simp [slidingWindows]

/-- C1: for every odd window length `n` and every mains series of length `L`,
padding with `n // 2` zeros on each side and sliding a stride-1 window of
length `n` produces exactly `L` windows. -/
theorem window_count_eq_series_length (xs : List ℚ) (n : ℕ) (mmean mstd : ℚ)
    (hodd : n % 2 = 1) :
    (processMainsChunk xs n mmean mstd).length = xs.length := by
  simp only [processMainsChunk, List.length_map, slidingWindows_length,
    padSeries_length]
  omega

/-- C1 witness: a length-5 series with window length 3 yields 5 windows. -/
theorem window_count_eq_series_length_witness :
    (processMainsChunk [4, 8, 15, 16, 23] 3 0 1).length = 5 :=
  window_count_eq_series_length [4, 8, 15, 16, 23] 3 0 1 (by decide)

/-- C9 counterexample: on mains chunk [0,0,0,5,0,0,0] with sequence_length 3,
mains_mean 0, mains_std 1, the code does NOT produce the window list stated by
the spec (whose first and last windows are truncated to length 2). -/
theorem windows_scenario_counterexample :
    processMainsChunk [0, 0, 0, 5, 0, 0, 0] 3 0 1 ≠
      [[0, 0], [0, 0, 0], [0, 0, 5], [0, 5, 0], [5, 0, 0], [0, 0, 0], [0, 0]] := by
  norm_num [processMainsChunk, slidingWindows, padSeries, normalizeValue,
    List.range_succ]

/-- C9 (amended): on mains chunk [0,0,0,5,0,0,0] with sequence_length 3,
mains_mean 0, mains_std 1, the padding+slice algorithm yields exactly the 7
full-length windows [0,0,0],[0,0,0],[0,0,5],[0,5,0],[5,0,0],[0,0,0],[0,0,0]. -/
theorem windows_scenario :
    processMainsChunk [0, 0, 0, 5, 0, 0, 0] 3 0 1 =
      [[0, 0, 0], [0, 0, 0], [0, 0, 5], [0, 5, 0], [5, 0, 0], [0, 0, 0],
        [0, 0, 0]] := by
  norm_num [processMainsChunk, slidingWindows, padSeries, normalizeValue,
    List.range_succ]

/-- C8: for every x, mean and nonzero std, denormalizing the normalized value
returns x (exactly, over ℚ, hence within any floating-point tolerance):
preprocessing's normalization and inference's denormalization are mutual
inverses. -/
theorem denormalize_normalize_round_trip (x mean std : ℚ) (h : std ≠ 0) :
    denormalizeValue (normalizeValue x mean std) mean std = x := by
  unfold denormalizeValue normalizeValue
  field_simp

/-- C8 witness: round trip at x = 7, mean = 2, std = 3. -/
theorem denormalize_normalize_round_trip_witness :
    denormalizeValue (normalizeValue 7 2 3) 2 3 = 7 :=
  denormalize_normalize_round_trip 7 2 3 (by decide)

/-- C7: construction with an even sequence_length raises SequenceLengthError
(eagerly, before any data is seen: `rnnInit` consumes no data), and
construction with an odd sequence_length succeeds. -/
theorem init_even_sequence_length_errors (M : Type) (p : RNNParams) :
    ((p.sequence_length.getD 19) % 2 = 0 →
      rnnInit M p = Except.error RNNError.sequenceLengthError) ∧
    ((p.sequence_length.getD 19) % 2 = 1 →
      rnnInit M p = Except.ok
        { chunk_wise_training := p.chunk_wise_training.getD false
          sequence_length := p.sequence_length.getD 19
          n_epochs := p.n_epochs.getD 10
          batch_size := p.batch_size.getD 512
          appliance_params := p.appliance_params.getD []
          mains_mean := p.mains_mean.getD 1800
          mains_std := p.mains_std.getD 600
          models := [] }) := by
  constructor <;> intro h <;> simp [rnnInit, h]

/-- C7 witness: sequence_length 4 is rejected and sequence_length 3 accepted. -/
theorem init_even_sequence_length_errors_witness :
    rnnInit Unit ⟨none, some 4, none, none, none, none, none⟩ =
        Except.error RNNError.sequenceLengthError ∧
    rnnInit Unit ⟨none, some 3, none, none, none, none, none⟩ =
        Except.ok
          { chunk_wise_training := false
            sequence_length := 3
            n_epochs := 10
            batch_size := 512
            appliance_params := []
            mains_mean := 1800
            mains_std := 600
            models := [] } :=
  ⟨(init_even_sequence_length_errors Unit
      ⟨none, some 4, none, none, none, none, none⟩).1 (by decide),
    (init_even_sequence_length_errors Unit
      ⟨none, some 3, none, none, none, none, none⟩).2 (by decide)⟩

/-- np.mean of a concatenated appliance series (rnn_new.py line 401). -/
def npMean (l : List ℚ) : ℚ := l.sum / l.length

/-- The population variance underlying np.std (line 402): np.std uses ddof=0. -/
def npVariance (l : List ℚ) : ℚ :=
  ((l.map (fun x => (x - npMean l) ^ 2)).sum) / l.length

/-- np.std (line 402): the square root of the population variance.  Real-valued
because the square root of a rational is irrational in general. -/
noncomputable def npStd (l : List ℚ) : ℝ := Real.sqrt (npVariance l)

/-- Stats as produced by `set_appliance_params`: the mean is an exact rational,
the std a real (a square root, possibly floored). -/
structure StatsR where
  mean : ℚ
  std : ℝ

/-- Stats computation for one appliance in `RNN.set_appliance_params`
(lines 400-405): mean and std of all concatenated readings, with the std
floored to 100 whenever the computed std is < 1. -/
noncomputable def applianceStats (l : List ℚ) : StatsR :=
  { mean := npMean l, std := if npStd l < 1 then 100 else npStd l }

/-- Python dict update with a single key: replace in place when the key exists
(preserving insertion order), append otherwise. -/
def dictUpdate {β : Type} (store : List (String × β)) (k : String) (v : β) :
    List (String × β) :=
  if (List.lookup k store).isSome then
    store.map (fun p => if p.1 == k then (k, v) else p)
  else store ++ [(k, v)]

/-- RNN.set_appliance_params (lines 390-405): for each (appliance, chunk list)
pair, concatenate the chunks, compute mean/floored std, and update the store. -/
noncomputable def setApplianceParams (store : List (String × StatsR))
    (train_appliances : List (String × List (List ℚ))) : List (String × StatsR) :=
  train_appliances.foldl (fun s p => dictUpdate s p.1 (applianceStats p.2.flatten)) store

lemma npVariance_const3 : npVariance [10, 10, 10] = 0 := by
  norm_num [npVariance, npMean]

lemma npStd_lt_one_of_variance_zero (l : List ℚ) (h : npVariance l = 0) :
    npStd l < 1 := by
  rw [npStd, h]
  norm_num

/-- C5: every appliance whose raw readings have computed std < 1 is stored with
std exactly 100; in particular readings [10,10,10] yield stored stats
mean = 10, std = 100. -/
theorem appliance_std_floor :
    (∀ l : List ℚ, npStd l < 1 → (applianceStats l).std = 100) ∧
    setApplianceParams [] [("app1", [[10, 10, 10]])] =
      [("app1", { mean := 10, std := 100 })] := by
  constructor
  · intro l h
    simp only [applianceStats]
    rw [if_pos h]
  · have h1 : npStd [10, 10, 10] < 1 :=
      npStd_lt_one_of_variance_zero _ npVariance_const3
    simp only [setApplianceParams, List.foldl_cons, List.foldl_nil, dictUpdate,
      List.flatten_cons, List.flatten_nil, List.append_nil, List.lookup_nil,
      Option.isSome_none, Bool.false_eq_true, if_false, List.nil_append,
      applianceStats]
    rw [if_pos h1]
    norm_num [npMean]

/-- C5 witness: readings [2, 2] have std 0 < 1 and are stored with std 100. -/
theorem appliance_std_floor_witness : (applianceStats [2, 2]).std = 100 :=
  appliance_std_floor.1 [2, 2]
    (npStd_lt_one_of_variance_zero _ (by norm_num [npVariance, npMean]))

/-- The body of a Python `for` loop that raises: process the items in order and
abort with the first error. -/
def exceptMapList {α β : Type} (f : α → Except RNNError β) :
    List α → Except RNNError (List β)
  | [] => Except.ok []
  | x :: xs =>
    match f x with
    | Except.error e => Except.error e
    | Except.ok y =>
      match exceptMapList f xs with
      | Except.error e => Except.error e
      | Except.ok ys => Except.ok (y :: ys)

lemma exceptMapList_ok_mem {α β : Type} (f : α → Except RNNError β)
    (l : List α) (out : List β) (h : exceptMapList f l = Except.ok out) :
    ∀ y ∈ out, ∃ x ∈ l, f x = Except.ok y := by
  induction l generalizing out with
  | nil =>
    simp only [exceptMapList, Except.ok.injEq] at h
    subst h
    simp
  | cons a t ih =>
    simp only [exceptMapList] at h
    cases hfa : f a with
    | error e => rw [hfa] at h; exact absurd h (by simp)
    | ok y0 =>
      rw [hfa] at h
      cases hrec : exceptMapList f t with
      | error e => rw [hrec] at h; exact absurd h (by simp)
      | ok ys =>
        rw [hrec] at h
        simp only [Except.ok.injEq] at h
        subst h
        intro y hy
        rcases List.mem_cons.mp hy with hy0 | hyt
        · exact ⟨a, List.mem_cons_self a t, hy0 ▸ hfa⟩
        · obtain ⟨x, hx, hfx⟩ := ih ys hrec y hyt
          exact ⟨x, List.mem_cons_of_mem a hx, hfx⟩

/-- xs.map applied to the z-score transform (lines 365, and the window rows of
line 338): normalize a whole series with fixed mean and std. -/
def normalizeSeries (xs : List ℚ) (mean std : ℚ) : List ℚ :=
  xs.map (fun x => normalizeValue x mean std)

/-- One appliance through the 'train' branch of `call_preprocessing`
(lines 346-369): look up its stats — raising ApplianceNotFoundError when
absent (lines 352-354) — then normalize each of its chunks. -/
def processAppliance (params : List (String × Stats))
    (p : String × List (List ℚ)) : Except RNNError (String × List (List ℚ)) :=
  match List.lookup p.1 params with
  | some stats =>
      Except.ok (p.1, p.2.map (fun app_df => normalizeSeries app_df stats.mean stats.std))
  | none => Except.error RNNError.applianceNotFound

/-- The 'test' branch of `call_preprocessing` (lines 373-388): window and
normalize each mains chunk. -/
def callPreprocessingTest {M : Type} (st : RNNState M)
    (mains_lst : List (List ℚ)) : List (List (List ℚ)) :=
  mains_lst.map (fun mains =>
    processMainsChunk mains st.sequence_length st.mains_mean st.mains_std)

/-- The 'train' branch of `call_preprocessing` (lines 326-371): window and
normalize every mains chunk (same code as the 'test' branch), then normalize
every appliance chunk, aborting on the first appliance without stats. -/
def callPreprocessingTrain {M : Type} (st : RNNState M)
    (mains_lst : List (List ℚ)) (submeters_lst : List (String × List (List ℚ))) :
    Except RNNError (List (List (List ℚ)) × List (String × List (List ℚ))) :=
  let mains_df_list := callPreprocessingTest st mains_lst
  match exceptMapList (processAppliance st.appliance_params) submeters_lst with
  | Except.error e => Except.error e
  | Except.ok appliance_list => Except.ok (mains_df_list, appliance_list)

/-- np.where(v > 0, v, 0) applied pointwise (line 311). -/
def clampNeg (v : ℚ) : ℚ := if 0 < v then v else 0

lemma clampNeg_nonneg (v : ℚ) : 0 ≤ clampNeg v := by
  unfold clampNeg
  split
  · linarith
  · exact le_refl 0

/-- One appliance inside `disaggregate_chunk`'s per-chunk loop (lines 285-313):
run the model on every window (the DataLoader batches with shuffle=False and
np.concatenate restores the full prediction array in window order, so the
batched prediction equals a map over windows), then denormalize with the
appliance's stored stats — a missing store entry raises KeyError at the
subscript on line 308 — and clamp negatives to zero. -/
def disaggregateAppliance {M : Type} (forward : M → List ℚ → ℚ)
    (params : List (String × Stats)) (windows : List (List ℚ))
    (p : String × M) : Except RNNError (String × List ℚ) :=
  let prediction := windows.map (forward p.2)
  match List.lookup p.1 params with
  | some stats =>
      let denorm := prediction.map (fun v => denormalizeValue v stats.mean stats.std)
      Except.ok (p.1, denorm.map clampNeg)
  | none => Except.error RNNError.keyError

/-- RNN.disaggregate_chunk (lines 259-318) with do_preprocessing=True: swap in
the bulk model argument when supplied (lines 260-261), preprocess every test
chunk, and produce one (appliance, series) table per chunk in registry order. -/
def disaggregateChunk {M : Type} (forward : M → List ℚ → ℚ) (st : RNNState M)
    (test_main_list : List (List ℚ)) (modelOverride : Option (List (String × M))) :
    Except RNNError (List (List (String × List ℚ))) :=
  let models := modelOverride.getD st.models
  let processed := callPreprocessingTest st test_main_list
  exceptMapList
    (fun windows =>
      exceptMapList (disaggregateAppliance forward st.appliance_params windows) models)
    processed

/-- C6: every value in every appliance column of every returned per-chunk
table is non-negative — negative denormalized estimates are clamped to zero. -/
theorem disaggregate_output_nonneg {M : Type} (forward : M → List ℚ → ℚ)
    (st : RNNState M) (test_main_list : List (List ℚ))
    (modelOverride : Option (List (String × M)))
    (tables : List (List (String × List ℚ)))
    (hok : disaggregateChunk forward st test_main_list modelOverride = Except.ok tables) :
    ∀ tbl ∈ tables, ∀ pc ∈ tbl, ∀ v ∈ pc.2, 0 ≤ v := by
  intro tbl htbl pc hpc v hv
  obtain ⟨w, _, hwok⟩ := exceptMapList_ok_mem _ _ _ hok tbl htbl
  obtain ⟨am, _, hamok⟩ := exceptMapList_ok_mem _ _ _ hwok pc hpc
  unfold disaggregateAppliance at hamok
  cases hlk : List.lookup am.1 st.appliance_params with
  | none => rw [hlk] at hamok; exact absurd hamok (by simp)
  | some stats =>
    rw [hlk] at hamok
    simp only [Except.ok.injEq] at hamok
    have hcol : v ∈ pc.2 := hv
    rw [← hamok] at hcol
    simp only [List.mem_map] at hcol
    obtain ⟨u, _, hu⟩ := hcol
    rw [← hu]
    exact clampNeg_nonneg u

lemma disaggregateAppliance_error_eq {M : Type} (forward : M → List ℚ → ℚ)
    (params : List (String × Stats)) (windows : List (List ℚ))
    (p : String × M) (e : RNNError)
    (h : disaggregateAppliance forward params windows p = Except.error e) :
    e = RNNError.keyError := by
  unfold disaggregateAppliance at h
  cases hlk : List.lookup p.1 params with
  | none =>
    rw [hlk] at h
    simp only [Except.error.injEq] at h
    exact h.symm
  | some stats => rw [hlk] at h; exact absurd h (by simp)

lemma disaggregateAppliance_missing_error {M : Type} (forward : M → List ℚ → ℚ)
    (params : List (String × Stats)) (windows : List (List ℚ))
    (models : List (String × M)) (a : String) (m : M)
    (hmem : (a, m) ∈ models) (hmiss : List.lookup a params = none) :
    exceptMapList (disaggregateAppliance forward params windows) models =
      Except.error RNNError.keyError := by
  induction models with
  | nil => exact absurd hmem (by simp)
  | cons b t ih =>
    rcases List.mem_cons.mp hmem with heq | ht
    · have hb : disaggregateAppliance forward params windows b =
          Except.error RNNError.keyError := by
        rw [← heq]
        simp [disaggregateAppliance, hmiss]
      simp [exceptMapList, hb]
    · cases hb : disaggregateAppliance forward params windows b with
      | error e =>
        have he := disaggregateAppliance_error_eq forward params windows b e hb
        subst he
        simp [exceptMapList, hb]
      | ok y => simp [exceptMapList, hb, ih ht]

/-- C10: an inference call whose effective model registry (the bulk model-swap
argument when supplied, the stored registry otherwise) contains an appliance
with no entry in the appliance parameter store fails with a KeyError at the
denormalization lookup instead of returning result tables. -/
theorem disaggregate_missing_stats_errors {M : Type} (forward : M → List ℚ → ℚ)
    (st : RNNState M) (test_main_list : List (List ℚ))
    (modelOverride : Option (List (String × M))) (a : String) (m : M)
    (hne : test_main_list ≠ [])
    (hmem : (a, m) ∈ modelOverride.getD st.models)
    (hmiss : List.lookup a st.appliance_params = none) :
    disaggregateChunk forward st test_main_list modelOverride =
      Except.error RNNError.keyError := by
  cases test_main_list with
  | nil => exact absurd rfl hne
  | cons c cs =>
    have hinner := disaggregateAppliance_missing_error forward st.appliance_params
      (processMainsChunk c st.sequence_length st.mains_mean st.mains_std)
      (modelOverride.getD st.models) a m hmem hmiss
    simp [disaggregateChunk, callPreprocessingTest, exceptMapList, hinner]

/-- C10 witness: a registry supplied through the model-swap argument holding
appliance "b", with no stored stats for "b", makes inference raise KeyError. -/
theorem disaggregate_missing_stats_errors_witness :
    disaggregateChunk (M := Unit) (fun _ _ => 0)
        ⟨false, 3, 10, 512, [("a", ⟨0, 1⟩)], 0, 1, []⟩ [[1]]
        (some [("b", ())]) = Except.error RNNError.keyError :=
  disaggregate_missing_stats_errors (fun _ _ => 0)
    ⟨false, 3, 10, 512, [("a", ⟨0, 1⟩)], 0, 1, []⟩ [[1]] (some [("b", ())])
    "b" () (by simp) (by simp) (by simp [List.lookup])

/-- C6 witness: a model that always outputs -5 with stats mean 0, std 1 gives
the clamped all-zero column, whose entries the theorem proves non-negative. -/
theorem disaggregate_output_nonneg_witness : (0 : ℚ) ≤ 0 :=
  disaggregate_output_nonneg (M := Unit) (fun _ _ => -5)
    ⟨false, 3, 10, 512, [("a", ⟨0, 1⟩)], 0, 1, [("a", ())]⟩ [[1, 2, 3]] none
    [[("a", [0, 0, 0])]]
    (by norm_num [disaggregateChunk, disaggregateAppliance, callPreprocessingTest,
      processMainsChunk, slidingWindows, padSeries, normalizeValue,
      denormalizeValue, clampNeg, exceptMapList, List.range_succ, List.lookup])
    [("a", [0, 0, 0])] (by simp) ("a", [0, 0, 0]) (by simp) 0 (by simp)

/-- The stats-ensure step at the top of `RNN.partial_fit` (lines 122-123):
when the parameter store is empty (`len(self.appliance_params) == 0`), fill it
from the training chunks.  The concrete stats computation
(`set_appliance_params`) produces a real-valued (square-root) std and is
modelled above by `setApplianceParams`; the rational-valued pipeline therefore
takes the stats computation as the argument `computeParams`, and the theorems
below hold for every such function. -/
def ensureApplianceParams {M : Type}
    (computeParams : List (String × List (List ℚ)) → List (String × Stats))
    (st : RNNState M) (train_appliances : List (String × List (List ℚ))) :
    RNNState M :=
  if st.appliance_params.length = 0 then
    { st with appliance_params := computeParams train_appliances }
  else st

lemma ensureApplianceParams_models {M : Type}
    (computeParams : List (String × List (List ℚ)) → List (String × Stats))
    (st : RNNState M) (train_appliances : List (String × List (List ℚ))) :
    (ensureApplianceParams computeParams st train_appliances).models = st.models := by
  unfold ensureApplianceParams
  split <;> rfl

lemma ensureApplianceParams_of_nonempty {M : Type}
    (computeParams : List (String × List (List ℚ)) → List (String × Stats))
    (st : RNNState M) (train_appliances : List (String × List (List ℚ)))
    (hne : st.appliance_params ≠ []) :
    ensureApplianceParams computeParams st train_appliances = st := by
  unfold ensureApplianceParams
  rw [if_neg]
  simpa [List.length_eq_zero] using hne

/-- The body of the per-appliance training loop of `RNN.partial_fit`
(lines 148-186): look the appliance up in the registry, creating and
registering a fresh network on first sight (lines 152-154, before any data
check); then, when the window tensor is non-empty (`train_main.size > 0`,
line 160) and holds more than 10 windows (`len(train_main) > 10`, line 162),
run `train_model` — abstracted into `trainFn`, which mutates the borrowed
model in place, modelled as replacing the registry entry. -/
def trainLoopStep {M : Type} (returnNetwork : ℕ → M)
    (trainFn : String → M → List (List ℚ) → List ℚ → M) (seqLen : ℕ)
    (train_main : List (List ℚ)) (models : List (String × M))
    (app : String × List ℚ) : List (String × M) :=
  let reg :=
    match List.lookup app.1 models with
    | some m => (models, m)
    | none => (models ++ [(app.1, returnNetwork seqLen)], returnNetwork seqLen)
  if 0 < (train_main.map List.length).sum ∧ 10 < train_main.length then
    dictUpdate reg.1 app.1 (trainFn app.1 reg.2 train_main app.2)
  else reg.1

/-- RNN.partial_fit (lines 120-186) with do_preprocessing=True: ensure stats,
preprocess (which validates every appliance's stats before the training loop),
concatenate the per-chunk windows (pd.concat + reshape, lines 133-141), and run
the per-appliance training loop. -/
def partialFit {M : Type}
    (computeParams : List (String × List (List ℚ)) → List (String × Stats))
    (returnNetwork : ℕ → M)
    (trainFn : String → M → List (List ℚ) → List ℚ → M)
    (st : RNNState M) (train_main : List (List ℚ))
    (train_appliances : List (String × List (List ℚ))) :
    Except RNNError (RNNState M) :=
  let st1 := ensureApplianceParams computeParams st train_appliances
  match callPreprocessingTrain st1 train_main train_appliances with
  | Except.error e => Except.error e
  | Except.ok pr =>
      let train_main_windows := pr.1.flatten
      let new_train_appliances := pr.2.map (fun p => (p.1, p.2.flatten))
      Except.ok { st1 with
        models := new_train_appliances.foldl
          (trainLoopStep returnNetwork trainFn st1.sequence_length train_main_windows)
          st1.models }

lemma processAppliance_missing_error (params : List (String × Stats))
    (l : List (String × List (List ℚ))) (a : String) (dfs : List (List ℚ))
    (hmem : (a, dfs) ∈ l) (hmiss : List.lookup a params = none) :
    exceptMapList (processAppliance params) l =
      Except.error RNNError.applianceNotFound := by
  induction l with
  | nil => exact absurd hmem (by simp)
  | cons b t ih =>
    rcases List.mem_cons.mp hmem with heq | ht
    · have hb : processAppliance params b =
          Except.error RNNError.applianceNotFound := by
        rw [← heq]
        simp [processAppliance, hmiss]
      simp [exceptMapList, hb]
    · cases hb : processAppliance params b with
      | error e =>
        have he : e = RNNError.applianceNotFound := by
          unfold processAppliance at hb
          cases hlk : List.lookup b.1 params with
          | none =>
            rw [hlk] at hb
            simp only [Except.error.injEq] at hb
            exact hb.symm
          | some s => rw [hlk] at hb; exact absurd hb (by simp)
        subst he
        simp [exceptMapList, hb]
      | ok y => simp [exceptMapList, hb, ih ht]

/-- C3: a training call on a nonempty parameter store that lacks stats for a
requested appliance fails with ApplianceNotFoundError.  Preprocessing validates
every appliance before the training loop, so the result is an error for every
`returnNetwork`/`trainFn`: no network is ever created or trained, the registry
is untouched, and no default stats are substituted. -/
theorem partial_fit_unknown_appliance {M : Type}
    (computeParams : List (String × List (List ℚ)) → List (String × Stats))
    (returnNetwork : ℕ → M)
    (trainFn : String → M → List (List ℚ) → List ℚ → M)
    (st : RNNState M) (train_main : List (List ℚ))
    (train_appliances : List (String × List (List ℚ)))
    (a : String) (dfs : List (List ℚ))
    (hne : st.appliance_params ≠ [])
    (hmem : (a, dfs) ∈ train_appliances)
    (hmiss : List.lookup a st.appliance_params = none) :
    partialFit computeParams returnNetwork trainFn st train_main train_appliances =
      Except.error RNNError.applianceNotFound := by
  have hens := ensureApplianceParams_of_nonempty computeParams st train_appliances hne
  have hpre := processAppliance_missing_error st.appliance_params
    train_appliances a dfs hmem hmiss
  simp [partialFit, hens, callPreprocessingTrain, hpre]

/-- C3 witness: store holding only "a", training data for "b": the call
aborts with ApplianceNotFoundError. -/
theorem partial_fit_unknown_appliance_witness :
    partialFit (M := ℕ) (fun _ => []) (fun _ => 0) (fun _ m _ _ => m)
        ⟨false, 3, 10, 512, [("a", ⟨0, 1⟩)], 0, 1, []⟩ [[1, 2]]
        [("b", [[1, 2]])] = Except.error RNNError.applianceNotFound :=
  partial_fit_unknown_appliance (fun _ => []) (fun _ => 0) (fun _ m _ _ => m)
    ⟨false, 3, 10, 512, [("a", ⟨0, 1⟩)], 0, 1, []⟩ [[1, 2]] [("b", [[1, 2]])]
    "b" [[1, 2]] (by simp) (by simp) (by simp [List.lookup])

/-- The registry effect of the training loop when every appliance is skipped:
only the create-on-first-sight registration of lines 152-154 happens — a fresh
network is appended for each name not already present, in order. -/
def registerOnly {M : Type} (returnNetwork : ℕ → M) (seqLen : ℕ)
    (models : List (String × M)) (names : List String) : List (String × M) :=
  names.foldl (fun ms name =>
    match List.lookup name ms with
    | some _ => ms
    | none => ms ++ [(name, returnNetwork seqLen)]) models

lemma processAppliance_all_found (params : List (String × Stats))
    (l : List (String × List (List ℚ)))
    (hcover : ∀ p ∈ l, (List.lookup p.1 params).isSome = true) :
    ∃ out, exceptMapList (processAppliance params) l = Except.ok out ∧
      out.map Prod.fst = l.map Prod.fst := by
  induction l with
  | nil => exact ⟨[], rfl, rfl⟩
  | cons b t ih =>
    have hb := hcover b (List.mem_cons_self b t)
    obtain ⟨stats, hstats⟩ := Option.isSome_iff_exists.mp hb
    obtain ⟨out, hout, hfst⟩ := ih (fun p hp => hcover p (List.mem_cons_of_mem b hp))
    refine ⟨(b.1, b.2.map (fun df => normalizeSeries df stats.mean stats.std)) :: out,
      ?_, by simp [hfst]⟩
    simp [exceptMapList, processAppliance, hstats, hout]

lemma trainLoop_skip {M : Type} (returnNetwork : ℕ → M)
    (trainFn : String → M → List (List ℚ) → List ℚ → M) (seqLen : ℕ)
    (train_main : List (List ℚ)) (hfew : train_main.length ≤ 10)
    (apps : List (String × List ℚ)) (models : List (String × M)) :
    apps.foldl (trainLoopStep returnNetwork trainFn seqLen train_main) models =
      registerOnly returnNetwork seqLen models (apps.map Prod.fst) := by
  induction apps generalizing models with
  | nil => rfl
  | cons a t ih =>
    have hcond : ¬(0 < (train_main.map List.length).sum ∧ 10 < train_main.length) := by
      omega
    simp only [List.foldl_cons, List.map_cons, registerOnly, trainLoopStep,
      if_neg hcond]
    cases hlk : List.lookup a.1 models with
    | some m => simpa [registerOnly, hlk] using ih models
    | none => simpa [registerOnly, hlk] using ih (models ++ [(a.1, returnNetwork seqLen)])

/-- C4 counterexample: a training call with 5 windows for appliance "a", which
was never trained before, completes without raising but leaves "a" PRESENT in
the model registry (bound to the freshly created untrained network, here the
network 0) — not absent as the claim states. -/
theorem partial_fit_few_windows_counterexample :
    (partialFit (M := ℕ) (fun _ => []) (fun _ => 0) (fun _ m _ _ => m + 1)
        ⟨false, 3, 10, 512, [("a", ⟨0, 1⟩)], 0, 1, []⟩ [[1, 2, 3, 4, 5]]
        [("a", [[1, 2, 3, 4, 5]])]).map (fun s => List.lookup "a" s.models) =
      Except.ok (some 0) := by
  norm_num [partialFit, ensureApplianceParams, callPreprocessingTrain,
    callPreprocessingTest, processMainsChunk, slidingWindows, padSeries,
    normalizeValue, exceptMapList, processAppliance, List.lookup,
    normalizeSeries, trainLoopStep, dictUpdate, List.range_succ, Except.map]

/-- C4 (amended): when every requested appliance has stats and at most 10
windows are available, the training call completes without raising and no
training happens (the result does not depend on `trainFn`), but the registry is
NOT left without the appliance: a freshly created untrained network is
registered for every requested appliance not already present (an existing
entry is left unmodified). -/
theorem partial_fit_few_windows {M : Type}
    (computeParams : List (String × List (List ℚ)) → List (String × Stats))
    (returnNetwork : ℕ → M)
    (trainFn : String → M → List (List ℚ) → List ℚ → M)
    (st : RNNState M) (train_main : List (List ℚ))
    (train_appliances : List (String × List (List ℚ)))
    (hcover : ∀ p ∈ train_appliances,
      (List.lookup p.1
        (ensureApplianceParams computeParams st train_appliances).appliance_params).isSome
        = true)
    (hfew : ((callPreprocessingTest
        (ensureApplianceParams computeParams st train_appliances)
        train_main).flatten).length ≤ 10) :
    partialFit computeParams returnNetwork trainFn st train_main train_appliances =
      Except.ok { ensureApplianceParams computeParams st train_appliances with
        models := registerOnly returnNetwork
          (ensureApplianceParams computeParams st train_appliances).sequence_length
          st.models (train_appliances.map Prod.fst) } := by
  obtain ⟨out, hout, hfst⟩ := processAppliance_all_found
    (ensureApplianceParams computeParams st train_appliances).appliance_params
    train_appliances hcover
  have hnames : (out.map (fun p => (p.1, p.2.flatten))).map Prod.fst =
      train_appliances.map Prod.fst := by
    rw [← hfst]
    simp [List.map_map, Function.comp]
  simp only [partialFit, callPreprocessingTrain, hout]
  rw [trainLoop_skip _ _ _ _ hfew, hnames,
    ensureApplianceParams_models computeParams st train_appliances]

/-- C4 witness (for the amended claim): 5 windows for appliance "a" on an empty
registry: the call succeeds with "a" registered to the fresh network 0. -/
theorem partial_fit_few_windows_witness :
    partialFit (M := ℕ) (fun _ => []) (fun _ => 0) (fun _ m _ _ => m + 1)
        ⟨false, 3, 10, 512, [("a", ⟨0, 1⟩)], 0, 1, []⟩ [[1, 2, 3, 4, 5]]
        [("a", [[1, 2, 3, 4, 5]])] =
      Except.ok ⟨false, 3, 10, 512, [("a", ⟨0, 1⟩)], 0, 1, [("a", 0)]⟩ := by
  have h := partial_fit_few_windows (M := ℕ) (fun _ => []) (fun _ => 0)
    (fun _ m _ _ => m + 1) ⟨false, 3, 10, 512, [("a", ⟨0, 1⟩)], 0, 1, []⟩
    [[1, 2, 3, 4, 5]] [("a", [[1, 2, 3, 4, 5]])]
    (by simp [ensureApplianceParams, List.lookup])
    (by norm_num [callPreprocessingTest, ensureApplianceParams,
      processMainsChunk, slidingWindows, padSeries, normalizeValue,
      List.range_succ])
  simpa [ensureApplianceParams, registerOnly, List.lookup] using h

/-- One epoch of `RNN.train_model` as observed by the best-so-far bookkeeping:
the weights the live model holds after the epoch's gradient updates, and the
epoch's validation loss (a finite float, modelled ℚ). -/
structure EpochResult (W : Type) where
  weights : W
  valLoss : ℚ
deriving DecidableEq

/-- The state threaded through the epoch loop of `RNN.train_model`
(lines 188-257).  `liveWeights` is the single storage the model's parameters
live in, which `optimizer.step()` mutates in place.  `bestValLoss` is
`best_val_loss` with `none` standing for the initial `float('inf')`.
`best_model_state = model.state_dict().copy()` (line 247) is NOT a value
snapshot: `state_dict()` returns detached tensors that share that live storage
and the shallow dict `.copy()` clones none of them, so the embedding keeps only
the flag `bestIsSet` (`best_model_state is not None`); dereferencing the alias
at any later time yields the then-current `liveWeights` (`derefBestState`).
`saved` is the checkpoint persisted by `torch.save` at line 252, which
serializes the aliased tensors' values AT CALL TIME and is therefore a true
snapshot on stable storage. -/
structure TrainState (W : Type) where
  liveWeights : W
  bestValLoss : Option ℚ
  bestIsSet : Bool
  saved : Option W
deriving DecidableEq

/-- `val_loss < best_val_loss` (line 245), where the initial best is infinite. -/
def improves (v : ℚ) : Option ℚ → Bool
  | none => true
  | some b => decide (v < b)

/-- Reading `best_model_state`: its tensors alias the live parameter storage,
so whenever it has been set, the values read out are the current live
weights. -/
def derefBestState {W : Type} (s : TrainState W) : Option W :=
  if s.bestIsSet then some s.liveWeights else none

/-- `model.load_state_dict(sd)` overwrites the live parameters with the values
of `sd`. -/
def loadStateDict {W : Type} (_live sd : W) : W := sd

/-- One epoch (lines 198-252): the training phase writes the epoch's trained
weights into the live storage; on strict improvement (lines 244-252) the loop
records the new best loss, points `best_model_state` at the (aliased) state
dict, and persists its current values — at that moment the epoch's own trained
weights — with `torch.save`; otherwise only the live weights change. -/
def stepEpoch {W : Type} (s : TrainState W) (e : EpochResult W) : TrainState W :=
  if improves e.valLoss s.bestValLoss then
    { liveWeights := e.weights, bestValLoss := some e.valLoss, bestIsSet := true,
      saved := some e.weights }
  else { s with liveWeights := e.weights }

/-- The epoch loop (lines 198-252) folded over its observed epoch results. -/
def runEpochs {W : Type} (s : TrainState W) (es : List (EpochResult W)) :
    TrainState W :=
  es.foldl stepEpoch s

/-- The weights the last training phase wrote into the live storage: the last
epoch's trained weights, or the pre-call weights when there was no epoch. -/
def lastWeights {W : Type} (w0 : W) (es : List (EpochResult W)) : W :=
  match es.getLast? with
  | some e => e.weights
  | none => w0

/-- RNN.train_model (lines 188-257): run the epoch loop from an infinite best,
then `if best_model_state is not None: model.load_state_dict(best_model_state)`
(lines 255-256) — the state dict's tensors being aliases of the live
parameters, this copies the live weights onto themselves.  Returns the pair
(final live weights, persisted checkpoint). -/
def trainModel {W : Type} (w0 : W) (es : List (EpochResult W)) : W × Option W :=
  let final := runEpochs ⟨w0, none, false, none⟩ es
  match derefBestState final with
  | some sd => (loadStateDict final.liveWeights sd, final.saved)
  | none => (final.liveWeights, final.saved)

/-- Modelled from the spec's words "the snapshot with the minimum validation
loss": the epoch with the least validation loss, the earliest on ties (what a
running strict minimum selects). -/
def bestEpoch {W : Type} (e : EpochResult W) : List (EpochResult W) → EpochResult W
  | [] => e
  | f :: fs => if f.valLoss < e.valLoss then bestEpoch f fs else bestEpoch e fs

lemma lastWeights_cons {W : Type} (w0 : W) (f : EpochResult W)
    (fs : List (EpochResult W)) :
    lastWeights w0 (f :: fs) = lastWeights f.weights fs := by
  cases fs with
  | nil => rfl
  | cons g gs =>
    simp only [lastWeights, List.getLast?_cons_cons]
    cases hgl : (g :: gs).getLast? with
    | none => simp at hgl
    | some x => rfl

lemma runEpochs_from_best {W : Type} (es : List (EpochResult W))
    (e : EpochResult W) (live : W) :
    runEpochs ⟨live, some e.valLoss, true, some e.weights⟩ es =
      ⟨lastWeights live es, some (bestEpoch e es).valLoss, true,
        some (bestEpoch e es).weights⟩ := by
  induction es generalizing e live with
  | nil => rfl
  | cons f fs ih =>
    simp only [runEpochs, List.foldl_cons, stepEpoch, improves, bestEpoch,
      lastWeights_cons]
    by_cases h : f.valLoss < e.valLoss
    · rw [if_pos (decide_eq_true h), if_pos h]
      exact ih f f.weights
    · rw [if_neg (by simpa using h), if_neg h]
      exact ih e f.weights

lemma bestEpoch_le {W : Type} (es : List (EpochResult W)) (e : EpochResult W) :
    ∀ f ∈ e :: es, (bestEpoch e es).valLoss ≤ f.valLoss := by
  induction es generalizing e with
  | nil =>
    intro f hf
    rcases List.mem_cons.mp hf with h | h
    · rw [h]; exact le_refl _
    · exact absurd h (by simp)
  | cons g gs ih =>
    intro f hf
    simp only [bestEpoch]
    by_cases hge : g.valLoss < e.valLoss
    · rw [if_pos hge]
      rcases List.mem_cons.mp hf with h | h
      · calc (bestEpoch g gs).valLoss ≤ g.valLoss :=
              ih g g (List.mem_cons_self g gs)
          _ ≤ f.valLoss := by rw [h]; exact le_of_lt hge
      · exact ih g f h
    · rw [if_neg hge]
      rcases List.mem_cons.mp hf with h | h
      · exact ih e f (h ▸ List.mem_cons_self e gs)
      · rcases List.mem_cons.mp h with h2 | h2
        · have : e.valLoss ≤ g.valLoss := le_of_not_lt hge
          calc (bestEpoch e gs).valLoss ≤ e.valLoss :=
                ih e e (List.mem_cons_self e gs)
            _ ≤ f.valLoss := h2 ▸ this
        · exact ih e f (List.mem_cons_of_mem e h2)

/-- C2: the restore step of train_model is a no-op.  The loop does track the
minimum validation loss, and `torch.save` does persist the minimum-loss
weights (values are serialized at call time), but `best_model_state =
model.state_dict().copy()` is a shallow copy whose tensors alias the live
parameter storage that `optimizer.step()` mutates in place, so the
`load_state_dict` at line 256 copies the live weights onto themselves: for
every run, the live model ends with the LAST epoch's trained weights — not the
minimum-validation-loss snapshot the claim (and the code's own line 257 print,
"Loaded best model ... with validation loss") describe.  Concretely, with
epoch weights 5, 7, 9 and validation losses 3, 2, 4, the persisted checkpoint
holds the min-loss weights 7 while the live model ends with 9. -/
theorem train_model_restore_is_noop :
    (∀ (W : Type) (w0 : W) (es : List (EpochResult W)),
      trainModel w0 es =
        (lastWeights w0 es,
          match es with
          | [] => none
          | e :: es' => some (bestEpoch e es').weights)) ∧
    trainModel (0 : ℕ) [⟨5, 3⟩, ⟨7, 2⟩, ⟨9, 4⟩] = (9, some 7) := by
  constructor
  · intro W w0 es
    cases es with
    | nil => rfl
    | cons e es' =>
      have h1 : stepEpoch (⟨w0, none, false, none⟩ : TrainState W) e =
          ⟨e.weights, some e.valLoss, true, some e.weights⟩ := by
        simp [stepEpoch, improves]
      simp only [trainModel, runEpochs, List.foldl_cons]
      rw [show (List.foldl stepEpoch (stepEpoch ⟨w0, none, false, none⟩ e) es') =
            runEpochs (stepEpoch ⟨w0, none, false, none⟩ e) es' from rfl, h1,
        runEpochs_from_best]
      simp [derefBestState, loadStateDict, lastWeights_cons]
  · decide
